import Mathlib

/-!
Verification of the vote-processing state machine of the pinocchio_multisig
program. The definitions below are a shallow embedding of
src/src/instructions/process_vote.rs (`process_vote_instruction`). The four
record types (Multisig, MultisigConfig, ProposalState, VoteState) are declared
in the repository's state module, which is not part of the provided sources;
their layouts are modelled from the specification's data model (spec.md §3).
Addresses (32-byte public keys) are modelled as natural numbers; the
program-derived-address functions are modelled as abstract deterministic maps
(the underlying hash is an external collaborator per spec.md §4.1).
-/

namespace PinocchioMultisig

/-- An account address (32-byte public key), modelled as an opaque natural
number. -/
abbrev Pubkey := Nat

/-- Modelled from the spec: proposal status enumeration
(`{Active, Succeeded, Failed, Cancelled}`, spec.md §3); the source stores it
in `ProposalState.result`. -/
inductive ProposalStatus where
  | Active
  | Succeeded
  | Failed
  | Cancelled
deriving DecidableEq, Repr

/-- Modelled from the spec: the Authority Group record (`Multisig` in the
source). `num_members : u8` is the count of valid entries and
`members : [Address; 10]` the fixed-capacity ordered member list
(spec.md §3); the capacity bound 10 is represented by the length of the
list in well-formedness hypotheses. -/
structure Multisig where
  num_members : Nat
  members : List Pubkey
deriving DecidableEq, Repr

/-- Modelled from the spec: the Group Config record (`MultisigConfig` in the
source), holding the `min_threshold : u64` quorum parameter (spec.md §3). -/
structure MultisigConfig where
  min_threshold : Nat
deriving DecidableEq, Repr

/-- Modelled from the spec: the Proposal record (`ProposalState` in the
source): `proposal_id : u64`, status (stored in field `result`),
`expiry : u64`, the `active_members` eligibility allow-list, and the
per-member-index ballot array `votes : [u8; 10]` (spec.md §3). -/
structure ProposalState where
  proposal_id : Nat
  result : ProposalStatus
  expiry : Nat
  active_members : List Pubkey
  votes : List Nat
deriving DecidableEq, Repr

/-- Modelled from the spec: the per-proposal Ballot record (`VoteState` in the
source): `has_permission : bool`, `vote_count : u64`, the address `bump`, and
a `votes` array mirroring the per-member slots (capacity 10, spec.md §3). -/
structure VoteState where
  has_permission : Bool
  vote_count : Nat
  bump : Nat
  votes : List Nat
deriving DecidableEq, Repr

/-- The caller-visible metadata of one `AccountInfo`: its address, its owner
tag, and the signer/writable capabilities declared for the transaction. -/
structure AccountMeta where
  key : Pubkey
  owner : Pubkey
  is_signer : Bool
  is_writable : Bool
deriving DecidableEq, Repr

/-- The error kinds of the vote processor, one constructor per distinct
failure site of `process_vote_instruction`, named after the specification's
error taxonomy (spec.md §7). `to_program_error` below maps each to the
`ProgramError` value the source actually returns. -/
inductive VoteError where
  | invalidDataLen
  | missingRequiredSignature
  | notWritable
  | invalidChoice
  | wrongOwner
  | notAMember
  | badProposalAddress
  | proposalIdMismatch
  | proposalNotActive
  | proposalExpired
  | notEligible
  | badVoteStateAddress
  | permissionDenied
  | duplicateVote
deriving DecidableEq, Repr

/-- The `pinocchio::program_error::ProgramError` values that
`process_vote_instruction` can return. -/
inductive ProgramError where
  | invalidInstructionData
  | missingRequiredSignature
  | invalidAccountData
  | incorrectProgramId
deriving DecidableEq, Repr

/-- The `ProgramError` value returned by the source at each failure site
(lines 18, 27, 35, 46, 52, 75, 87, 91, 96, 104, 108, 118, 148, 154 of
process_vote.rs). -/
def to_program_error : VoteError → ProgramError
  | .invalidDataLen => .invalidInstructionData
  | .missingRequiredSignature => .missingRequiredSignature
  | .notWritable => .invalidAccountData
  | .invalidChoice => .invalidInstructionData
  | .wrongOwner => .incorrectProgramId
  | .notAMember => .invalidAccountData
  | .badProposalAddress => .invalidAccountData
  | .proposalIdMismatch => .invalidAccountData
  | .proposalNotActive => .invalidAccountData
  | .proposalExpired => .invalidAccountData
  | .notEligible => .invalidAccountData
  | .badVoteStateAddress => .invalidAccountData
  | .permissionDenied => .invalidAccountData
  | .duplicateVote => .invalidAccountData

/-- The full input of one `process_vote_instruction` call: the injected
program identity (the source's `crate::ID`), the instruction payload bytes,
the five accounts in source order with the typed contents of the four data
records, and the once-read clock value (source line 100). -/
structure VoteInput where
  program_id : Pubkey
  data : List Nat
  voter : AccountMeta
  multisig : AccountMeta
  proposal_state : AccountMeta
  vote_state : AccountMeta
  multisig_config : AccountMeta
  multisig_data : Multisig
  proposal_data : ProposalState
  multisig_config_data : MultisigConfig
  vote_state_data : VoteState
  current_time : Nat
deriving DecidableEq, Repr

/-- The mutable record state touched by the instruction: the four data
records plus the ballot account's owner tag (which flips to the program on
lazy creation). -/
structure Records where
  multisig : Multisig
  proposal : ProposalState
  multisig_config : MultisigConfig
  vote_state_owner : Pubkey
  vote_state : VoteState
deriving DecidableEq, Repr

/-- The record state as supplied to the call, before any mutation. -/
def VoteInput.records (inp : VoteInput) : Records :=
  ⟨inp.multisig_data, inp.proposal_data, inp.multisig_config_data,
    inp.vote_state.owner, inp.vote_state_data⟩

/-- Outcome of one call: success with the final records, a returned
`ProgramError` (tagged by failure site) with the records as of the abort, or
a Rust panic (array index out of bounds) with the records as of the abort. -/
inductive ProcessResult where
  | ok (st : Records)
  | err (e : VoteError) (st : Records)
  | panicked (st : Records)
deriving DecidableEq, Repr

/-- The record state carried by any outcome. -/
def ProcessResult.records : ProcessResult → Records
  | .ok st => st
  | .err _ st => st
  | .panicked st => st

/-- Whether the call returned success. -/
def ProcessResult.isOk : ProcessResult → Bool
  | .ok _ => true
  | _ => false

/-- Little-endian decode of the first eight payload bytes as a `u64`
(source line 39, the raw-pointer read of `proposal_id`). -/
def le_u64 (data : List Nat) : Nat :=
  data.getD 0 0 + 256 * (data.getD 1 0 + 256 * (data.getD 2 0 + 256 *
    (data.getD 3 0 + 256 * (data.getD 4 0 + 256 * (data.getD 5 0 + 256 *
      (data.getD 6 0 + 256 * data.getD 7 0))))))

/-- Model of `pubkey::checked_create_program_address` on the proposal seeds
`["proposal", multisig.key, proposal_id, bump]` (source lines 77-84): an
abstract deterministic map from the seed components to an address. -/
def derive_proposal_pda (msig : Pubkey) (proposal_id bump : Nat) : Pubkey :=
  Nat.pair 1 (Nat.pair msig (Nat.pair proposal_id bump))

/-- Model of `pubkey::find_program_address` on the ballot seeds
`["vote_state", multisig.key, proposal_id, bump]` (source lines 112-115),
projected to the returned address. -/
def derive_vote_state_pda (msig : Pubkey) (proposal_id bump : Nat) : Pubkey :=
  Nat.pair 2 (Nat.pair msig (Nat.pair proposal_id bump))

/-- The membership scan of source lines 73-75:
`(0..num_members).find(|i| members[i] == voter)`, written with an explicit
iteration count `rem` (the loop `i in 0..n` is `find_member members voter 0 n`;
`rem` counts the remaining indices `n - i`). The scan range is NOT clamped to
the array capacity, so `members[i]` is a bounds-checked access:
`Except.error ()` models the Rust index-out-of-bounds panic, `Except.ok none`
a completed scan without a match, and `Except.ok (some i)` the first matching
index. -/
def find_member (members : List Pubkey) (voter : Pubkey) (i : Nat) :
    Nat → Except Unit (Option Nat)
  | 0 => Except.ok none
  | rem + 1 =>
    match members[i]? with
    | none => Except.error ()
    | some m =>
      if m = voter then Except.ok (some i)
      else find_member members voter (i + 1) rem

/-- The tally loop of source lines 162-185: scan `votes[i .. i + rem]`
counting choices 1 (for), 2 (against), 3 (abstain) and their total, with
accumulators (the source loop `for i in 0..n` is `tally_scan votes 0 n 0 0 0 0`).
`none` models an out-of-bounds read (unreachable when the scan stays inside
the array). -/
def tally_scan (votes : List Nat) (i : Nat) :
    Nat → Nat → Nat → Nat → Nat → Option (Nat × Nat × Nat × Nat)
  | 0, f, a, ab, t => some (f, a, ab, t)
  | rem + 1, f, a, ab, t =>
    match votes[i]? with
    | none => none
    | some v =>
      if v = 1 then tally_scan votes (i + 1) rem (f + 1) a ab (t + 1)
      else if v = 2 then tally_scan votes (i + 1) rem f (a + 1) ab (t + 1)
      else if v = 3 then tally_scan votes (i + 1) rem f a (ab + 1) (t + 1)
      else tally_scan votes (i + 1) rem f a ab t

/-- Bounds-checked in-place array write, modelling
`proposal_data.votes[voter_index] = vote_choice` (source line 160): `none`
is the Rust out-of-bounds panic. -/
def list_set (l : List Nat) (i x : Nat) : Option (List Nat) :=
  if i < l.length then some (l.set i x) else none

/-- The status transition of source lines 191-203, evaluated in the source's
fixed priority order: Succeeded if the threshold is met by for-votes, else
Failed if met by against-votes, else Cancelled if past expiry, else Active. -/
def status_of (thr f a expiry current_time : Nat) : ProposalStatus :=
  if thr ≤ f then ProposalStatus.Succeeded
  else if thr ≤ a then ProposalStatus.Failed
  else if expiry < current_time then ProposalStatus.Cancelled
  else ProposalStatus.Active

/-- Result of the precondition phase (source lines 17-119): a failure, a
panic inside the membership scan, or the voter's member index together with
the decoded `vote_choice` and `bump` payload bytes. -/
inductive PreResult where
  | err (e : VoteError)
  | panic
  | ok (voter_index vote_choice bump : Nat)
deriving DecidableEq, Repr

/-- The structural checks of source lines 17-54, in order: payload length
(line 17), voter signature (line 25), writability of the multisig, proposal
and ballot accounts (lines 30-37), the vote-choice range check
`vote_choice > 3` (line 45), and the owner check of the multisig, proposal
and config accounts (lines 49-54, loop unrolled in its order). Returns the
first failure, or `none` when all pass. -/
def structural_checks (inp : VoteInput) : Option VoteError :=
  if inp.data.length < 10 then some .invalidDataLen
  else if inp.voter.is_signer = false then some .missingRequiredSignature
  else if inp.multisig.is_writable = false then some .notWritable
  else if inp.proposal_state.is_writable = false then some .notWritable
  else if inp.vote_state.is_writable = false then some .notWritable
  else if 3 < inp.data.getD 8 0 then some .invalidChoice
  else if inp.multisig.owner ≠ inp.program_id then some .wrongOwner
  else if inp.proposal_state.owner ≠ inp.program_id then some .wrongOwner
  else if inp.multisig_config.owner ≠ inp.program_id then some .wrongOwner
  else none

/-- The proposal-record checks of source lines 77-119, in order: the derived
proposal address (lines 77-88), the stored proposal id (lines 90-92), the
Active-status gate (lines 94-97), the expiry check (lines 100-105), the
`active_members` eligibility check (lines 107-109), and the derived ballot
address (lines 112-119). Returns the first failure, or `none` when all
pass. -/
def proposal_checks (inp : VoteInput) : Option VoteError :=
  if derive_proposal_pda inp.multisig.key (le_u64 inp.data)
      (inp.data.getD 9 0) ≠ inp.proposal_state.key then
    some .badProposalAddress
  else if inp.proposal_data.proposal_id ≠ le_u64 inp.data then
    some .proposalIdMismatch
  else if inp.proposal_data.result ≠ ProposalStatus.Active then
    some .proposalNotActive
  else if inp.proposal_data.expiry < inp.current_time then
    some .proposalExpired
  else if inp.proposal_data.active_members.contains inp.voter.key = false then
    some .notEligible
  else if derive_vote_state_pda inp.multisig.key (le_u64 inp.data)
      (inp.data.getD 9 0) ≠ inp.vote_state.key then
    some .badVoteStateAddress
  else .none

/-- The precondition phase of `process_vote_instruction`, mirroring source
lines 17-119 in order: the structural checks (lines 17-54), then the
membership scan (lines 73-75), then the proposal-record checks
(lines 77-119). On success it carries the voter's member index and the
decoded `vote_choice` (payload byte 8) and `bump` (payload byte 9). -/
def pre_checks (inp : VoteInput) : PreResult :=
  match structural_checks inp with
  | some e => .err e
  | none =>
    match find_member inp.multisig_data.members inp.voter.key 0
        inp.multisig_data.num_members with
    | .error _ => .panic
    | .ok none => .err .notAMember
    | .ok (some voter_index) =>
      match proposal_checks inp with
      | some e => .err e
      | none => .ok voter_index (inp.data.getD 8 0) (inp.data.getD 9 0)

/-- The ballot record as initialized right after lazy creation (source lines
129-141): the account is created zero-filled, then `has_permission`,
`vote_count` and `bump` are set. No element of its `votes` array is
written. -/
def created_ballot (bump : Nat) : VoteState :=
  { has_permission := true, vote_count := 1, bump := bump,
    votes := List.replicate 10 0 }

/-- The shared tail of the instruction (source lines 160-207): write the
vote choice into the proposal's ballot slot, recompute the tallies over
`votes[0 .. min(num_members, 10)]`, and apply the status transition. -/
def finalize (st : Records) (current_time voter_index vote_choice : Nat) :
    ProcessResult :=
  match list_set st.proposal.votes voter_index vote_choice with
  | none => .panicked st
  | some votes1 =>
    let st1 : Records := { st with proposal := { st.proposal with votes := votes1 } }
    match tally_scan votes1 0 (min st.multisig.num_members 10) 0 0 0 0 with
    | none => .panicked st1
    | some (f, a, _ab, _t) =>
      .ok { st1 with proposal := { st1.proposal with
              result := status_of st.multisig_config.min_threshold f a
                st.proposal.expiry current_time } }

/-- The whole `process_vote_instruction` (source lines 15-208): runs the
precondition phase, then either lazily creates and initializes the ballot
record (when its owner is not the program, source lines 122-141) or checks
permission and the duplicate-vote slot and increments `vote_count` (source
lines 143-158), and finally records the vote and the status transition. -/
def process_vote_instruction (inp : VoteInput) : ProcessResult :=
  match pre_checks inp with
  | .err e => .err e inp.records
  | .panic => .panicked inp.records
  | .ok voter_index vote_choice bump =>
    if inp.vote_state.owner ≠ inp.program_id then
      finalize { inp.records with
                   vote_state_owner := inp.program_id
                   vote_state := created_ballot bump }
        inp.current_time voter_index vote_choice
    else if inp.vote_state_data.has_permission = false then
      .err .permissionDenied inp.records
    else
      match inp.vote_state_data.votes[voter_index]? with
      | none => .panicked inp.records
      | some v =>
        if v ≠ 0 then .err .duplicateVote inp.records
        else
          finalize { inp.records with vote_state :=
                       { inp.vote_state_data with
                           vote_count := inp.vote_state_data.vote_count + 1 } }
            inp.current_time voter_index vote_choice

/-- A later call observing the records left behind by an earlier call: the
record-bearing fields of the input are replaced by the given record state. -/
def set_records (inp : VoteInput) (r : Records) : VoteInput :=
  { inp with
      multisig_data := r.multisig
      proposal_data := r.proposal
      multisig_config_data := r.multisig_config
      vote_state_data := r.vote_state
      vote_state := { inp.vote_state with owner := r.vote_state_owner } }

/-- One step of a call sequence: run the instruction on the current records
and keep whatever record state the outcome carries. -/
def apply_step (r : Records) (s : VoteInput) : Records :=
  (process_vote_instruction (set_records s r)).records

/-- Number of occurrences of choice `c` among the first `n` proposal ballot
slots — the specification's description of the tally (spec.md §4.2). -/
def count_in (votes : List Nat) (n c : Nat) : Nat :=
  ((votes.take n).filter (fun v => v == c)).length

/-- Structural well-formedness of a call input: the three fixed-capacity
arrays have their layout length 10 (guaranteed by the fixed-size record
codecs, spec.md §3). -/
def wf_input (inp : VoteInput) : Prop :=
  inp.multisig_data.members.length = 10 ∧
  inp.proposal_data.votes.length = 10 ∧
  inp.vote_state_data.votes.length = 10

instance (inp : VoteInput) : Decidable (wf_input inp) := by
  unfold wf_input; infer_instance

/-- Occurrences of choice `c` in the ballot-slot segment `votes[i .. i + rem]`. -/
def count_seg (votes : List Nat) (i rem c : Nat) : Nat :=
  (((votes.drop i).take rem).filter (fun v => v == c)).length

/-- The final record state of a successful `finalize`: the proposal with the
written ballot slot and the transitioned status; all other records are
untouched. -/
def finalize_result (st : Records) (ct : Nat) (votes1 : List Nat)
    (f a : Nat) : Records :=
  { st with proposal :=
      { st.proposal with
          votes := votes1
          result := status_of st.multisig_config.min_threshold f a
            st.proposal.expiry ct } }

/-- A key distinct from every entry of a list (one past the maximum). -/
def fresh_key (l : List Pubkey) : Pubkey := l.foldr max 0 + 1

/-- A probe call against a given group record: a syntactically valid vote by
a voter key chosen to match no entry of the member array, with every account
writable, correctly owned, and an Active unexpired proposal, so that
execution reaches the membership scan. -/
def probe_input (g : Multisig) : VoteInput :=
  { program_id := 0
    data := [0, 0, 0, 0, 0, 0, 0, 0, 1, 0]
    voter := { key := fresh_key g.members, owner := 0,
               is_signer := true, is_writable := true }
    multisig := { key := 0, owner := 0, is_signer := false, is_writable := true }
    proposal_state := { key := 0, owner := 0, is_signer := false,
                        is_writable := true }
    vote_state := { key := 0, owner := 0, is_signer := false,
                    is_writable := true }
    multisig_config := { key := 0, owner := 0, is_signer := false,
                         is_writable := false }
    multisig_data := g
    proposal_data := { proposal_id := 0, result := ProposalStatus.Active,
                       expiry := 0, active_members := [],
                       votes := List.replicate 10 0 }
    multisig_config_data := { min_threshold := 0 }
    vote_state_data := { has_permission := false, vote_count := 0, bump := 0,
                         votes := List.replicate 10 0 }
    current_time := 0 }

/-- A concrete baseline call: a two-member group (keys 1 and 2, threshold 2),
an Active proposal (id 5, expiry 1000) listing both members as eligible, the
clock at 100, correct derived addresses, and member 1 casting a For vote
(choice 1, bump 9) with no ballot record yet (foreign-owned ballot account,
so the first call creates it). -/
def c1_input : VoteInput :=
  { program_id := 0
    data := [5, 0, 0, 0, 0, 0, 0, 0, 1, 9]
    voter := { key := 1, owner := 50, is_signer := true, is_writable := true }
    multisig := { key := 7, owner := 0, is_signer := false, is_writable := true }
    proposal_state := { key := derive_proposal_pda 7 5 9, owner := 0,
                        is_signer := false, is_writable := true }
    vote_state := { key := derive_vote_state_pda 7 5 9, owner := 3,
                    is_signer := false, is_writable := true }
    multisig_config := { key := 11, owner := 0, is_signer := false,
                         is_writable := false }
    multisig_data := { num_members := 2,
                       members := [1, 2, 0, 0, 0, 0, 0, 0, 0, 0] }
    proposal_data := { proposal_id := 5, result := ProposalStatus.Active,
                       expiry := 1000, active_members := [1, 2],
                       votes := List.replicate 10 0 }
    multisig_config_data := { min_threshold := 2 }
    vote_state_data := { has_permission := false, vote_count := 0, bump := 0,
                         votes := List.replicate 10 0 }
    current_time := 100 }

/-- The same call by the same voter for the same proposal, issued against the
records left behind by the first call. -/
def c1_second : VoteInput :=
  set_records c1_input (process_vote_instruction c1_input).records

/-- The baseline call with vote_choice 0 (payload byte 8 set to 0). -/
def c2_input : VoteInput :=
  { c1_input with data := [5, 0, 0, 0, 0, 0, 0, 0, 0, 9] }

/-- The baseline call with vote_choice 4 (payload byte 8 set to 4). -/
def c2w_input : VoteInput :=
  { c1_input with data := [5, 0, 0, 0, 0, 0, 0, 0, 4, 9] }

/-- The baseline call against a proposal whose status is already Succeeded. -/
def c4_input : VoteInput :=
  { c1_input with proposal_data :=
      { c1_input.proposal_data with result := ProposalStatus.Succeeded } }

/-- The baseline call against an existing program-owned ballot record whose
slot for member index 0 is already nonzero (the duplicate-vote scenario of
the repository's own test). -/
def c5_input : VoteInput :=
  { c1_input with
      vote_state := { c1_input.vote_state with owner := 0 }
      vote_state_data := { has_permission := true, vote_count := 1, bump := 9,
                           votes := [1, 0, 0, 0, 0, 0, 0, 0, 0, 0] } }

/-- The baseline call with a foreign-owned multisig account AND a voter who
did not sign. -/
def c7_input : VoteInput :=
  { c1_input with
      voter := { c1_input.voter with is_signer := false }
      multisig := { c1_input.multisig with owner := 99 } }

/-- The baseline call with a foreign-owned multisig account (voter signs). -/
def c7w_input : VoteInput :=
  { c1_input with multisig := { c1_input.multisig with owner := 99 } }

/-! ### Facts about the membership scan -/

lemma find_member_ok_some {members : List Pubkey} {voter : Pubkey} :
    ∀ {rem i j : Nat}, find_member members voter i rem = Except.ok (some j) →
      i ≤ j ∧ j < i + rem ∧ members[j]? = some voter := by
  intro rem
  induction rem with
  | zero => intro i j h; simp [find_member] at h
  | succ rem ih =>
    intro i j h
    cases hm : members[i]? with
    | none => simp only [find_member, hm] at h; exact absurd h (by simp)
    | some m =>
      simp only [find_member, hm] at h
      by_cases hv : m = voter
      · rw [if_pos hv] at h
        cases h
        exact ⟨Nat.le_refl i, by omega, by rw [hm, hv]⟩
      · rw [if_neg hv] at h
        obtain ⟨h1, h2, h3⟩ := ih h
        exact ⟨by omega, by omega, h3⟩

lemma find_member_error {members : List Pubkey} {voter : Pubkey} :
    ∀ {rem i : Nat} {u : Unit}, find_member members voter i rem = Except.error u →
      members.length < i + rem := by
  intro rem
  induction rem with
  | zero => intro i u h; simp [find_member] at h
  | succ rem ih =>
    intro i u h
    cases hm : members[i]? with
    | none =>
      have : members.length ≤ i := by
        by_contra hlt
        rw [List.getElem?_eq_getElem (by omega)] at hm
        exact absurd hm (by simp)
      omega
    | some m =>
      simp only [find_member, hm] at h
      by_cases hv : m = voter
      · rw [if_pos hv] at h; exact absurd h (by simp)
      · rw [if_neg hv] at h
        have := ih h
        omega

lemma find_member_not_found {members : List Pubkey} {voter : Pubkey} :
    ∀ {rem i : Nat}, i + rem ≤ members.length →
      (∀ j, i ≤ j → j < i + rem → members[j]? ≠ some voter) →
      find_member members voter i rem = Except.ok none := by
  intro rem
  induction rem with
  | zero => intro i _ _; rw [find_member]
  | succ rem ih =>
    intro i hlen hnot
    have hm : members[i]? = some members[i] := List.getElem?_eq_getElem (by omega)
    have hne : members[i] ≠ voter := by
      intro he
      exact hnot i (Nat.le_refl i) (by omega) (by rw [hm, he])
    simp only [find_member, hm, if_neg hne]
    exact ih (by omega) (fun j hj1 hj2 => hnot j (by omega) (by omega))

lemma find_member_found {members : List Pubkey} {voter : Pubkey} :
    ∀ {rem i : Nat}, i + rem ≤ members.length →
      (∃ j, i ≤ j ∧ j < i + rem ∧ members[j]? = some voter) →
      ∃ j, find_member members voter i rem = Except.ok (some j) := by
  intro rem
  induction rem with
  | zero => intro i _ h; obtain ⟨j, h1, h2, _⟩ := h; omega
  | succ rem ih =>
    intro i hlen hex
    have hm : members[i]? = some members[i] := List.getElem?_eq_getElem (by omega)
    by_cases hv : members[i] = voter
    · exact ⟨i, by simp only [find_member, hm, if_pos hv]⟩
    · obtain ⟨j, h1, h2, h3⟩ := hex
      have hji : j ≠ i := by
        intro he
        rw [he, hm] at h3
        exact hv (by injection h3)
      obtain ⟨j', hj'⟩ := ih (i := i + 1) (by omega) ⟨j, by omega, by omega, h3⟩
      exact ⟨j', by simp only [find_member, hm, if_neg hv]; exact hj'⟩

lemma find_member_reaches_end {members : List Pubkey} {voter : Pubkey} :
    ∀ {rem i : Nat}, members.length < i + rem → i ≤ members.length →
      (∀ x ∈ members, x ≠ voter) →
      find_member members voter i rem = Except.error () := by
  intro rem
  induction rem with
  | zero => intro i h1 h2 _; omega
  | succ rem ih =>
    intro i hlen hi hnot
    cases hm : members[i]? with
    | none => simp only [find_member, hm]
    | some m =>
      have hmem : m ∈ members := List.getElem?_mem hm
      have hilt : i < members.length := by
        by_contra hge
        rw [List.getElem?_eq_none (by omega)] at hm
        exact absurd hm (by simp)
      simp only [find_member, hm, if_neg (hnot m hmem)]
      exact ih (by omega) (by omega) hnot

lemma mem_le_foldr_max {x : Pubkey} :
    ∀ {l : List Pubkey}, x ∈ l → x ≤ l.foldr max 0 := by
  intro l
  induction l with
  | nil => intro h; exact absurd h (by simp)
  | cons a l ih =>
    intro h
    rcases List.mem_cons.mp h with he | hm
    · subst he; exact Nat.le_max_left _ _
    · exact Nat.le_trans (ih hm) (Nat.le_max_right _ _)

/-! ### Facts about the tally loop -/


lemma count_seg_succ (votes : List Nat) (i rem c : Nat) (h : i < votes.length) :
    count_seg votes i (rem + 1) c =
      (if votes[i] = c then 1 else 0) + count_seg votes (i + 1) rem c := by
  unfold count_seg
  rw [List.drop_eq_getElem_cons h, List.take_succ_cons, List.filter_cons]
  by_cases hc : votes[i] = c
  · rw [if_pos hc, if_pos (by simp [hc]), List.length_cons]
    omega
  · rw [if_neg hc, if_neg (by simp [hc])]
    omega

set_option maxHeartbeats 1000000 in
lemma tally_scan_counts {votes : List Nat} :
    ∀ {rem i f a b t : Nat}, i + rem ≤ votes.length →
      tally_scan votes i rem f a b t =
        some (f + count_seg votes i rem 1, a + count_seg votes i rem 2,
              b + count_seg votes i rem 3,
              t + (count_seg votes i rem 1 + count_seg votes i rem 2 +
                   count_seg votes i rem 3)) := by
  intro rem
  induction rem with
  | zero => intro i f a b t _; simp [tally_scan, count_seg]
  | succ rem ih =>
    intro i f a b t h
    have hm : votes[i]? = some votes[i] := List.getElem?_eq_getElem (by omega)
    have h1 := count_seg_succ votes i rem 1 (by omega)
    have h2 := count_seg_succ votes i rem 2 (by omega)
    have h3 := count_seg_succ votes i rem 3 (by omega)
    simp only [tally_scan, hm]
    by_cases hv1 : votes[i] = 1
    · rw [if_pos hv1, @ih (i + 1) (f + 1) a b (t + 1) (by omega), h1, h2, h3]
      rw [if_pos hv1, if_neg (by omega), if_neg (by omega)]
      simp only [Option.some.injEq, Prod.mk.injEq]
      refine ⟨by omega, by omega, by omega, by omega⟩
    · rw [if_neg hv1]
      by_cases hv2 : votes[i] = 2
      · rw [if_pos hv2, @ih (i + 1) f (a + 1) b (t + 1) (by omega), h1, h2, h3]
        rw [if_neg (by omega), if_pos hv2, if_neg (by omega)]
        simp only [Option.some.injEq, Prod.mk.injEq]
        refine ⟨by omega, by omega, by omega, by omega⟩
      · rw [if_neg hv2]
        by_cases hv3 : votes[i] = 3
        · rw [if_pos hv3, @ih (i + 1) f a (b + 1) (t + 1) (by omega), h1, h2, h3]
          rw [if_neg (by omega), if_neg (by omega), if_pos hv3]
          simp only [Option.some.injEq, Prod.mk.injEq]
          refine ⟨by omega, by omega, by omega, by omega⟩
        · rw [if_neg hv3, @ih (i + 1) f a b t (by omega), h1, h2, h3]
          rw [if_neg (by omega), if_neg (by omega), if_neg (by omega)]
          simp only [Option.some.injEq, Prod.mk.injEq]
          refine ⟨by omega, by omega, by omega, by omega⟩

lemma tally_scan_full (votes : List Nat) (n : Nat) (h : n ≤ votes.length) :
    tally_scan votes 0 n 0 0 0 0 =
      some (count_in votes n 1, count_in votes n 2, count_in votes n 3,
            count_in votes n 1 + count_in votes n 2 + count_in votes n 3) := by
  have hc := @tally_scan_counts votes n 0 0 0 0 0 (by omega)
  simpa [count_seg, count_in] using hc

lemma mem_take_iff {l : List Pubkey} {n : Nat} (hn : n ≤ l.length) {v : Pubkey} :
    v ∈ l.take n ↔ ∃ j, j < n ∧ l[j]? = some v := by
  constructor
  · intro h
    obtain ⟨i, hi, he⟩ := List.mem_iff_getElem.mp h
    have hi' : i < n := by
      have := List.length_take n l
      omega
    refine ⟨i, hi', ?_⟩
    rw [List.getElem?_eq_getElem (by omega)]
    rw [← List.getElem_take l]
    · rw [he]
  · intro ⟨j, hj, he⟩
    have hjl : j < l.length := by omega
    rw [List.getElem?_eq_getElem hjl] at he
    apply List.mem_iff_getElem.mpr
    refine ⟨j, by rw [List.length_take]; omega, ?_⟩
    rw [List.getElem_take l]
    injection he

/-! ### Facts about the shared tail (vote write, tally, status transition) -/


lemma finalize_ok_inv {st : Records} {ct vi c : Nat} {st' : Records}
    (h : finalize st ct vi c = ProcessResult.ok st') :
    ∃ votes1 f a b t,
      list_set st.proposal.votes vi c = some votes1 ∧
      tally_scan votes1 0 (min st.multisig.num_members 10) 0 0 0 0 =
        some (f, a, b, t) ∧
      st' = finalize_result st ct votes1 f a := by
  cases hs : list_set st.proposal.votes vi c with
  | none => simp only [finalize, hs] at h; exact ProcessResult.noConfusion h
  | some votes1 =>
    cases ht : tally_scan votes1 0 (min st.multisig.num_members 10) 0 0 0 0 with
    | none =>
      simp only [finalize, hs, ht] at h
      exact ProcessResult.noConfusion h
    | some q =>
      obtain ⟨f, a, b, t⟩ := q
      simp only [finalize, hs, ht, ProcessResult.ok.injEq] at h
      exact ⟨votes1, f, a, b, t, rfl, ht, h.symm⟩

lemma finalize_ne_err (st : Records) (ct vi c : Nat) (e : VoteError)
    (st'' : Records) : finalize st ct vi c ≠ ProcessResult.err e st'' := by
  unfold finalize
  cases hs : list_set st.proposal.votes vi c with
  | none => simp
  | some votes1 =>
    cases ht : tally_scan votes1 0 (min st.multisig.num_members 10) 0 0 0 0 with
    | none => simp [ht]
    | some q => obtain ⟨f, a, b, t⟩ := q; simp [ht]

lemma finalize_vote_state (st : Records) (ct vi c : Nat) :
    (finalize st ct vi c).records.vote_state = st.vote_state ∧
    (finalize st ct vi c).records.vote_state_owner = st.vote_state_owner := by
  unfold finalize
  cases hs : list_set st.proposal.votes vi c with
  | none => exact ⟨rfl, rfl⟩
  | some votes1 =>
    cases ht : tally_scan votes1 0 (min st.multisig.num_members 10) 0 0 0 0 with
    | none => constructor <;> · simp only [ht]; rfl
    | some q =>
      obtain ⟨f, a, b, t⟩ := q
      constructor <;> · simp only [ht]; rfl

lemma finalize_ok_total (st : Records) (ct vi c : Nat)
    (h1 : vi < st.proposal.votes.length)
    (h2 : min st.multisig.num_members 10 ≤ st.proposal.votes.length) :
    ∃ st'', finalize st ct vi c = ProcessResult.ok st'' := by
  have ht := tally_scan_full (st.proposal.votes.set vi c)
    (min st.multisig.num_members 10) (by rw [List.length_set]; exact h2)
  simp only [finalize, list_set, if_pos h1, ht]
  exact ⟨_, rfl⟩

/-! ### Facts about the precondition phase -/

lemma structural_checks_none_elim {inp : VoteInput}
    (h : structural_checks inp = none) :
    10 ≤ inp.data.length ∧ inp.voter.is_signer = true ∧
      inp.multisig.is_writable = true ∧
      inp.proposal_state.is_writable = true ∧
      inp.vote_state.is_writable = true ∧
      inp.data.getD 8 0 ≤ 3 ∧
      inp.multisig.owner = inp.program_id ∧
      inp.proposal_state.owner = inp.program_id ∧
      inp.multisig_config.owner = inp.program_id := by
  unfold structural_checks at h
  split_ifs at h with h1 h2 h3 h4 h5 h6 h7 h8 h9
  refine ⟨by omega, ?_, ?_, ?_, ?_, by omega, ?_, ?_, ?_⟩
  · exact Bool.not_eq_false _ |>.mp h2 |>.symm ▸ rfl
  · exact Bool.not_eq_false _ |>.mp h3 |>.symm ▸ rfl
  · exact Bool.not_eq_false _ |>.mp h4 |>.symm ▸ rfl
  · exact Bool.not_eq_false _ |>.mp h5 |>.symm ▸ rfl
  · exact not_not.mp h7
  · exact not_not.mp h8
  · exact not_not.mp h9

lemma structural_checks_none_intro {inp : VoteInput}
    (h1 : 10 ≤ inp.data.length) (h2 : inp.voter.is_signer = true)
    (h3 : inp.multisig.is_writable = true)
    (h4 : inp.proposal_state.is_writable = true)
    (h5 : inp.vote_state.is_writable = true)
    (h6 : inp.data.getD 8 0 ≤ 3)
    (h7 : inp.multisig.owner = inp.program_id)
    (h8 : inp.proposal_state.owner = inp.program_id)
    (h9 : inp.multisig_config.owner = inp.program_id) :
    structural_checks inp = none := by
  unfold structural_checks
  rw [if_neg (by omega), if_neg (by simp [h2]), if_neg (by simp [h3]),
    if_neg (by simp [h4]), if_neg (by simp [h5]), if_neg (by omega),
    if_neg (by simp [h7]), if_neg (by simp [h8]), if_neg (by simp [h9])]

lemma proposal_checks_none_elim {inp : VoteInput}
    (h : proposal_checks inp = none) :
    derive_proposal_pda inp.multisig.key (le_u64 inp.data)
        (inp.data.getD 9 0) = inp.proposal_state.key ∧
      inp.proposal_data.proposal_id = le_u64 inp.data ∧
      inp.proposal_data.result = ProposalStatus.Active ∧
      inp.current_time ≤ inp.proposal_data.expiry ∧
      inp.proposal_data.active_members.contains inp.voter.key = true ∧
      derive_vote_state_pda inp.multisig.key (le_u64 inp.data)
        (inp.data.getD 9 0) = inp.vote_state.key := by
  unfold proposal_checks at h
  split_ifs at h with h1 h2 h3 h4 h5 h6
  exact ⟨not_not.mp h1, not_not.mp h2, not_not.mp h3, by omega,
    Bool.not_eq_false _ |>.mp h5 |>.symm ▸ rfl, not_not.mp h6⟩

lemma pre_checks_ok_elim {inp : VoteInput} {vi c b : Nat}
    (h : pre_checks inp = PreResult.ok vi c b) :
    structural_checks inp = none ∧
      find_member inp.multisig_data.members inp.voter.key 0
        inp.multisig_data.num_members = Except.ok (some vi) ∧
      proposal_checks inp = none ∧
      c = inp.data.getD 8 0 ∧ b = inp.data.getD 9 0 := by
  cases hs : structural_checks inp with
  | some e => simp only [pre_checks, hs] at h; exact PreResult.noConfusion h
  | none =>
    cases hf : find_member inp.multisig_data.members inp.voter.key 0
        inp.multisig_data.num_members with
    | error u =>
      simp only [pre_checks, hs, hf] at h
      exact PreResult.noConfusion h
    | ok o =>
      cases o with
      | none =>
        simp only [pre_checks, hs, hf] at h
        exact PreResult.noConfusion h
      | some vj =>
        cases hp : proposal_checks inp with
        | some e =>
          simp only [pre_checks, hs, hf, hp] at h
          exact PreResult.noConfusion h
        | none =>
          simp only [pre_checks, hs, hf, hp, PreResult.ok.injEq] at h
          obtain ⟨hj, hc, hb⟩ := h
          subst hj
          exact ⟨rfl, rfl, rfl, hc.symm, hb.symm⟩

lemma pre_checks_panic_elim {inp : VoteInput}
    (h : pre_checks inp = PreResult.panic) :
    ∃ u, find_member inp.multisig_data.members inp.voter.key 0
      inp.multisig_data.num_members = Except.error u := by
  cases hs : structural_checks inp with
  | some e => simp only [pre_checks, hs] at h; exact PreResult.noConfusion h
  | none =>
    cases hf : find_member inp.multisig_data.members inp.voter.key 0
        inp.multisig_data.num_members with
    | error u => exact ⟨u, rfl⟩
    | ok o =>
      cases o with
      | none =>
        simp only [pre_checks, hs, hf] at h
        exact PreResult.noConfusion h
      | some vj =>
        cases hp : proposal_checks inp with
        | some e =>
          simp only [pre_checks, hs, hf, hp] at h
          exact PreResult.noConfusion h
        | none =>
          simp only [pre_checks, hs, hf, hp] at h
          exact PreResult.noConfusion h

/-! ### Facts about the whole instruction -/

lemma list_set_some_elim {l : List Nat} {i x : Nat} {l' : List Nat}
    (h : list_set l i x = some l') : i < l.length ∧ l' = l.set i x := by
  unfold list_set at h
  split_ifs at h with h1
  cases h; exact ⟨h1, rfl⟩

lemma finalize_ne_panic (st : Records) (ct vi c : Nat)
    (h1 : vi < st.proposal.votes.length)
    (h2 : min st.multisig.num_members 10 ≤ st.proposal.votes.length)
    (stp : Records) : finalize st ct vi c ≠ ProcessResult.panicked stp := by
  obtain ⟨st'', hok⟩ := finalize_ok_total st ct vi c h1 h2
  rw [hok]
  exact fun hcc => ProcessResult.noConfusion hcc

lemma process_vote_err_of_structural {inp : VoteInput} {e : VoteError}
    (h : structural_checks inp = some e) :
    process_vote_instruction inp = ProcessResult.err e inp.records := by
  simp only [process_vote_instruction, pre_checks, h]

lemma process_vote_err_notAMember {inp : VoteInput}
    (hs : structural_checks inp = none)
    (hf : find_member inp.multisig_data.members inp.voter.key 0
      inp.multisig_data.num_members = Except.ok none) :
    process_vote_instruction inp = ProcessResult.err .notAMember inp.records := by
  simp only [process_vote_instruction, pre_checks, hs, hf]

lemma process_vote_err_of_proposal {inp : VoteInput} {vi : Nat} {e : VoteError}
    (hs : structural_checks inp = none)
    (hf : find_member inp.multisig_data.members inp.voter.key 0
      inp.multisig_data.num_members = Except.ok (some vi))
    (hp : proposal_checks inp = some e) :
    process_vote_instruction inp = ProcessResult.err e inp.records := by
  simp only [process_vote_instruction, pre_checks, hs, hf, hp]

lemma process_vote_err_records {inp : VoteInput} {e : VoteError} {st : Records}
    (h : process_vote_instruction inp = ProcessResult.err e st) :
    st = inp.records := by
  cases hpre : pre_checks inp with
  | err e' =>
    simp only [process_vote_instruction, hpre, ProcessResult.err.injEq] at h
    exact h.2.symm
  | panic =>
    simp only [process_vote_instruction, hpre] at h
    exact ProcessResult.noConfusion h
  | ok vi c b =>
    simp only [process_vote_instruction, hpre] at h
    split at h
    · exact absurd h (finalize_ne_err _ _ _ _ _ _)
    · split at h
      · simp only [ProcessResult.err.injEq] at h
        exact h.2.symm
      · split at h
        · exact ProcessResult.noConfusion h
        · split at h
          · simp only [ProcessResult.err.injEq] at h
            exact h.2.symm
          · exact absurd h (finalize_ne_err _ _ _ _ _ _)

lemma process_vote_not_active {inp : VoteInput}
    (hna : inp.proposal_data.result ≠ ProposalStatus.Active) :
    (∀ st, process_vote_instruction inp ≠ ProcessResult.ok st) ∧
      (process_vote_instruction inp).records = inp.records := by
  have hpre : ∀ vi c b, pre_checks inp ≠ PreResult.ok vi c b := by
    intro vi c b hok
    obtain ⟨_, _, hp, _, _⟩ := pre_checks_ok_elim hok
    exact hna (proposal_checks_none_elim hp).2.2.1
  cases hpre2 : pre_checks inp with
  | err e =>
    have hrun : process_vote_instruction inp = ProcessResult.err e inp.records := by
      simp only [process_vote_instruction, hpre2]
    rw [hrun]
    exact ⟨fun st hok => ProcessResult.noConfusion hok, rfl⟩
  | panic =>
    have hrun : process_vote_instruction inp = ProcessResult.panicked inp.records := by
      simp only [process_vote_instruction, hpre2]
    rw [hrun]
    exact ⟨fun st hok => ProcessResult.noConfusion hok, rfl⟩
  | ok vi c b => exact absurd hpre2 (hpre vi c b)

lemma process_vote_ballot (inp : VoteInput) :
    (process_vote_instruction inp).records.vote_state.votes
        = inp.vote_state_data.votes ∨
      (process_vote_instruction inp).records.vote_state.votes
        = List.replicate 10 0 := by
  cases hpre : pre_checks inp with
  | err e => left; simp only [process_vote_instruction, hpre]; rfl
  | panic => left; simp only [process_vote_instruction, hpre]; rfl
  | ok vi c b =>
    simp only [process_vote_instruction, hpre]
    split
    · right
      rw [(finalize_vote_state _ _ _ _).1]
      rfl
    · split
      · left; rfl
      · split
        · left; rfl
        · split
          · left; rfl
          · left
            rw [(finalize_vote_state _ _ _ _).1]

lemma process_vote_no_panic {inp : VoteInput} (hwf : wf_input inp)
    (hnm : inp.multisig_data.num_members ≤ 10) (st : Records) :
    process_vote_instruction inp ≠ ProcessResult.panicked st := by
  obtain ⟨hm10, hp10, hv10⟩ := hwf
  intro hcon
  cases hpre : pre_checks inp with
  | err e =>
    simp only [process_vote_instruction, hpre] at hcon
    exact ProcessResult.noConfusion hcon
  | panic =>
    obtain ⟨u, hferr⟩ := pre_checks_panic_elim hpre
    have := find_member_error hferr
    omega
  | ok vi c b =>
    obtain ⟨hs, hf, hp, hc, hb⟩ := pre_checks_ok_elim hpre
    obtain ⟨_, hvilt, hvm⟩ := find_member_ok_some hf
    have hvi10 : vi < 10 := by
      have hlt : vi < inp.multisig_data.members.length := by
        by_contra hge
        rw [List.getElem?_eq_none (by omega)] at hvm
        exact Option.noConfusion hvm
      omega
    have hb1 : vi < inp.proposal_data.votes.length := by omega
    have hb2 : min inp.multisig_data.num_members 10
        ≤ inp.proposal_data.votes.length := by omega
    simp only [process_vote_instruction, hpre] at hcon
    split at hcon
    · exact absurd hcon (finalize_ne_panic _ _ _ _ hb1 hb2 _)
    · split at hcon
      · exact ProcessResult.noConfusion hcon
      · split at hcon
        · rename_i heqv
          rw [List.getElem?_eq_getElem (show vi < inp.vote_state_data.votes.length
            by omega)] at heqv
          exact Option.noConfusion heqv
        · split at hcon
          · exact ProcessResult.noConfusion hcon
          · exact absurd hcon (finalize_ne_panic _ _ _ _ hb1 hb2 _)

lemma process_vote_ok_inv {inp : VoteInput} {st' : Records}
    (h : process_vote_instruction inp = ProcessResult.ok st') :
    ∃ vi,
      find_member inp.multisig_data.members inp.voter.key 0
        inp.multisig_data.num_members = Except.ok (some vi) ∧
      vi < inp.proposal_data.votes.length ∧
      inp.current_time ≤ inp.proposal_data.expiry ∧
      inp.proposal_data.result = ProposalStatus.Active ∧
      st'.proposal.votes = inp.proposal_data.votes.set vi (inp.data.getD 8 0) ∧
      (∃ f a b t,
        tally_scan (inp.proposal_data.votes.set vi (inp.data.getD 8 0)) 0
          (min inp.multisig_data.num_members 10) 0 0 0 0 = some (f, a, b, t) ∧
        st'.proposal.result = status_of inp.multisig_config_data.min_threshold
          f a inp.proposal_data.expiry inp.current_time) := by
  cases hpre : pre_checks inp with
  | err e =>
    simp only [process_vote_instruction, hpre] at h
    exact ProcessResult.noConfusion h
  | panic =>
    simp only [process_vote_instruction, hpre] at h
    exact ProcessResult.noConfusion h
  | ok vi c b =>
    obtain ⟨hs, hf, hp, hc, hb⟩ := pre_checks_ok_elim hpre
    obtain ⟨_, _, hact, hexp, _, _⟩ := proposal_checks_none_elim hp
    subst hc
    subst hb
    refine ⟨vi, hf, ?_, hexp, hact, ?_⟩
    all_goals simp only [process_vote_instruction, hpre] at h
    all_goals split at h
    case _ =>
      obtain ⟨votes1, f, a, b', t, hls, hts, hst⟩ := finalize_ok_inv h
      obtain ⟨hlt, hset⟩ := list_set_some_elim hls
      exact hlt
    case _ =>
      split at h
      · exact ProcessResult.noConfusion h
      · split at h
        · exact ProcessResult.noConfusion h
        · split at h
          · exact ProcessResult.noConfusion h
          · obtain ⟨votes1, f, a, b', t, hls, hts, hst⟩ := finalize_ok_inv h
            obtain ⟨hlt, hset⟩ := list_set_some_elim hls
            exact hlt
    case _ =>
      obtain ⟨votes1, f, a, b', t, hls, hts, hst⟩ := finalize_ok_inv h
      obtain ⟨hlt, hset⟩ := list_set_some_elim hls
      subst hset
      subst hst
      refine ⟨rfl, f, a, b', t, hts, rfl⟩
    case _ =>
      split at h
      · exact ProcessResult.noConfusion h
      · split at h
        · exact ProcessResult.noConfusion h
        · split at h
          · exact ProcessResult.noConfusion h
          · obtain ⟨votes1, f, a, b', t, hls, hts, hst⟩ := finalize_ok_inv h
            obtain ⟨hlt, hset⟩ := list_set_some_elim hls
            subst hset
            subst hst
            refine ⟨rfl, f, a, b', t, hts, rfl⟩

/-! ### Call sequences and the out-of-bounds probe -/

lemma set_records_records (inp : VoteInput) (r : Records) :
    (set_records inp r).records = r := rfl

lemma apply_step_not_active {r : Records}
    (hna : r.proposal.result ≠ ProposalStatus.Active) (s : VoteInput) :
    apply_step r s = r := by
  unfold apply_step
  have h := (@process_vote_not_active (set_records s r) hna).2
  rw [h, set_records_records]

lemma foldl_not_active {r : Records}
    (hna : r.proposal.result ≠ ProposalStatus.Active) :
    ∀ steps : List VoteInput, steps.foldl apply_step r = r := by
  intro steps
  induction steps with
  | nil => rfl
  | cons s ss ih => rw [List.foldl_cons, apply_step_not_active hna s]; exact ih

lemma apply_step_ballot_zero {r : Records}
    (h0 : ∀ v ∈ r.vote_state.votes, v = 0) (s : VoteInput) :
    ∀ v ∈ (apply_step r s).vote_state.votes, v = 0 := by
  unfold apply_step
  rcases process_vote_ballot (set_records s r) with hcase | hcase
  · rw [hcase]; exact h0
  · rw [hcase]
    intro v hv
    exact List.eq_of_mem_replicate hv

lemma foldl_ballot_zero :
    ∀ (steps : List VoteInput) (r : Records),
      (∀ v ∈ r.vote_state.votes, v = 0) →
      ∀ v ∈ (steps.foldl apply_step r).vote_state.votes, v = 0 := by
  intro steps
  induction steps with
  | nil => intro r h0; exact h0
  | cons s ss ih =>
    intro r h0
    rw [List.foldl_cons]
    exact ih _ (apply_step_ballot_zero h0 s)

lemma status_of_ne_cancelled {thr f a e ct : Nat} (h : ct ≤ e) :
    status_of thr f a e ct ≠ ProposalStatus.Cancelled := by
  unfold status_of
  split_ifs with t1 t2 t3
  · exact fun hc => ProposalStatus.noConfusion hc
  · exact fun hc => ProposalStatus.noConfusion hc
  · omega
  · exact fun hc => ProposalStatus.noConfusion hc


lemma fresh_key_not_mem {l : List Pubkey} : ∀ x ∈ l, x ≠ fresh_key l := by
  intro x hx heq
  have hle : x ≤ l.foldr max 0 := mem_le_foldr_max hx
  rw [heq] at hle
  unfold fresh_key at hle
  exact Nat.not_succ_le_self _ hle


lemma probe_input_wf (g : Multisig) (hg : g.members.length = 10) :
    wf_input (probe_input g) := by
  refine ⟨hg, ?_, ?_⟩ <;> simp [probe_input]

lemma probe_panics (g : Multisig) (hg : g.members.length = 10)
    (hnm : 10 < g.num_members) :
    process_vote_instruction (probe_input g)
      = ProcessResult.panicked (probe_input g).records := by
  have hfind : find_member g.members (fresh_key g.members) 0
      g.num_members = Except.error () := by
    refine find_member_reaches_end (by omega) (by omega) ?_
    exact fresh_key_not_mem
  have hstruct : structural_checks (probe_input g) = none := by
    refine structural_checks_none_intro ?_ rfl rfl rfl rfl ?_ rfl rfl rfl
    · simp [probe_input]
    · simp [probe_input]
  have hpre : pre_checks (probe_input g) = PreResult.panic := by
    simp only [pre_checks, hstruct]
    have hkey : (probe_input g).voter.key = fresh_key g.members := rfl
    have hmem : (probe_input g).multisig_data = g := rfl
    rw [hkey, hmem, hfind]
  simp only [process_vote_instruction, hpre]

/-! ### Claim theorems -/

/-- Claim C1 (code-bug evidence): after a first successful `process_vote`
call by voter 1 on proposal 5 (which creates the ballot record), a second
call by the same voter with the same proposal id does NOT fail with
DuplicateVote — it succeeds, because the instruction never writes the ballot
record's `votes` array, so the duplicate check `ballot.votes[voter_index] != 0`
still sees 0. -/
theorem second_vote_same_voter_accepted :
    (process_vote_instruction c1_input).isOk = true ∧
    c1_second.voter = c1_input.voter ∧
    c1_second.data = c1_input.data ∧
    (process_vote_instruction c1_second).isOk = true ∧
    process_vote_instruction c1_second ≠
      ProcessResult.err VoteError.duplicateVote c1_second.records := by
  decide

/-- Claim C2 (counterexample): a call with vote_choice = 0 is NOT rejected
with InvalidChoice — the validation `vote_choice > 3` lets 0 through and the
call succeeds. -/
theorem vote_choice_zero_accepted :
    c2_input.data.getD 8 0 = 0 ∧
    (process_vote_instruction c2_input).isOk = true := by
  decide

/-- Claim C2 (amended): when the preceding structural checks pass (payload
length, signer, writability), every call with vote_choice > 3 fails with
InvalidChoice and mutates no record; vote_choice = 0 is accepted by the
validation. -/
theorem vote_choice_above_three_rejected (inp : VoteInput)
    (h1 : 10 ≤ inp.data.length) (h2 : inp.voter.is_signer = true)
    (h3 : inp.multisig.is_writable = true)
    (h4 : inp.proposal_state.is_writable = true)
    (h5 : inp.vote_state.is_writable = true)
    (h6 : 3 < inp.data.getD 8 0) :
    process_vote_instruction inp =
      ProcessResult.err VoteError.invalidChoice inp.records := by
  have hst : structural_checks inp = some .invalidChoice := by
    unfold structural_checks
    rw [if_neg (by omega), if_neg (by simp [h2]), if_neg (by simp [h3]),
      if_neg (by simp [h4]), if_neg (by simp [h5]), if_pos h6]
  exact process_vote_err_of_structural hst

/-- Witness for the amended claim C2 at vote_choice = 4. -/
theorem vote_choice_above_three_rejected_witness :
    (10 ≤ c2w_input.data.length ∧ c2w_input.voter.is_signer = true ∧
      c2w_input.multisig.is_writable = true ∧
      c2w_input.proposal_state.is_writable = true ∧
      c2w_input.vote_state.is_writable = true ∧
      3 < c2w_input.data.getD 8 0) ∧
    process_vote_instruction c2w_input =
      ProcessResult.err VoteError.invalidChoice c2w_input.records :=
  ⟨by decide, vote_choice_above_three_rejected c2w_input (by decide) (by decide)
    (by decide) (by decide) (by decide) (by decide)⟩

/-- Claim C4: a call on a proposal whose status is not Active never succeeds
and mutates nothing; when the call reaches the status gate (structural checks
pass, the voter is found, the derived address and the proposal id match) it
fails precisely with ProposalNotActive; consequently the status is
monotone-terminal — any sequence of further calls leaves the records exactly
as they are. -/
theorem proposal_not_active_terminal (inp : VoteInput)
    (hna : inp.proposal_data.result ≠ ProposalStatus.Active) :
    (∀ st, process_vote_instruction inp ≠ ProcessResult.ok st) ∧
    (process_vote_instruction inp).records = inp.records ∧
    (∀ vi, structural_checks inp = none →
      find_member inp.multisig_data.members inp.voter.key 0
        inp.multisig_data.num_members = Except.ok (some vi) →
      derive_proposal_pda inp.multisig.key (le_u64 inp.data)
        (inp.data.getD 9 0) = inp.proposal_state.key →
      inp.proposal_data.proposal_id = le_u64 inp.data →
      process_vote_instruction inp =
        ProcessResult.err VoteError.proposalNotActive inp.records) ∧
    (∀ steps : List VoteInput, steps.foldl apply_step inp.records
      = inp.records) := by
  obtain ⟨h1, h2⟩ := process_vote_not_active hna
  refine ⟨h1, h2, ?_, ?_⟩
  · intro vi hs hf hpda hid
    have hp : proposal_checks inp = some .proposalNotActive := by
      unfold proposal_checks
      rw [if_neg (not_not_intro hpda), if_neg (not_not_intro hid), if_pos hna]
    exact process_vote_err_of_proposal hs hf hp
  · intro steps
    exact foldl_not_active hna steps

/-- Witness for claim C4: a Succeeded proposal; one further call leaves the
records unchanged. -/
theorem proposal_not_active_terminal_witness :
    c4_input.proposal_data.result ≠ ProposalStatus.Active ∧
    [c4_input].foldl apply_step c4_input.records = c4_input.records :=
  ⟨by decide, (proposal_not_active_terminal c4_input (by decide)).2.2.2
    [c4_input]⟩

/-- Claim C5: whenever the instruction returns an error, the record state it
leaves behind is exactly the input record state — the first failing check
aborts with no partial mutation. -/
theorem first_failure_no_mutation (inp : VoteInput) (e : VoteError)
    (st : Records)
    (h : process_vote_instruction inp = ProcessResult.err e st) :
    st = inp.records :=
  process_vote_err_records h

/-- Witness for claim C5: the duplicate-vote rejection (on a manually
pre-filled ballot) leaves the records untouched. -/
theorem first_failure_no_mutation_witness :
    process_vote_instruction c5_input =
      ProcessResult.err VoteError.duplicateVote c5_input.records ∧
    c5_input.records = c5_input.records :=
  ⟨by decide, first_failure_no_mutation c5_input VoteError.duplicateVote
    c5_input.records (by decide)⟩

/-- Claim C7 (counterexample): a call whose multisig account is foreign-owned
but whose voter did not sign fails with MissingRequiredSignature, not
WrongOwner — the owner check does not run before every other check. -/
theorem foreign_owner_not_first :
    c7_input.multisig.owner ≠ c7_input.program_id ∧
    process_vote_instruction c7_input =
      ProcessResult.err VoteError.missingRequiredSignature c7_input.records ∧
    VoteError.missingRequiredSignature ≠ VoteError.wrongOwner := by
  decide

/-- Claim C7 (amended): when the structural checks before it pass (payload
length, signer, writability, vote-choice range), a foreign-owned multisig
account makes the call fail with WrongOwner before any record check or
mutation (the owner loop tests the multisig account first, so no hypothesis
on the other owners is needed). -/
theorem foreign_owner_rejected (inp : VoteInput)
    (h1 : 10 ≤ inp.data.length) (h2 : inp.voter.is_signer = true)
    (h3 : inp.multisig.is_writable = true)
    (h4 : inp.proposal_state.is_writable = true)
    (h5 : inp.vote_state.is_writable = true)
    (h6 : inp.data.getD 8 0 ≤ 3)
    (hfo : inp.multisig.owner ≠ inp.program_id) :
    process_vote_instruction inp =
      ProcessResult.err VoteError.wrongOwner inp.records := by
  have hst : structural_checks inp = some .wrongOwner := by
    unfold structural_checks
    rw [if_neg (by omega), if_neg (by simp [h2]), if_neg (by simp [h3]),
      if_neg (by simp [h4]), if_neg (by simp [h5]), if_neg (by omega),
      if_pos hfo]
  exact process_vote_err_of_structural hst

/-- Witness for the amended claim C7. -/
theorem foreign_owner_rejected_witness :
    (10 ≤ c7w_input.data.length ∧ c7w_input.voter.is_signer = true ∧
      c7w_input.multisig.is_writable = true ∧
      c7w_input.proposal_state.is_writable = true ∧
      c7w_input.vote_state.is_writable = true ∧
      c7w_input.data.getD 8 0 ≤ 3 ∧
      c7w_input.multisig.owner ≠ c7w_input.program_id) ∧
    process_vote_instruction c7w_input =
      ProcessResult.err VoteError.wrongOwner c7w_input.records :=
  ⟨by decide, foreign_owner_rejected c7w_input (by decide) (by decide)
    (by decide) (by decide) (by decide) (by decide) (by decide)⟩

/-- Claim C3: on every successful call there is a member index vi (the
membership-scan result) such that the final proposal ballot array is the old
array with the submitted vote choice written at vi; the tally loop computes
exactly the counts of choices 1, 2 and 3 in the first
min(num_members, 10) slots of that array, with total equal to their sum; and
the final status is the fixed-priority transition (Succeeded if the For count
reaches the threshold, else Failed if the Against count does, else Cancelled
if past expiry, else Active; comparisons inclusive, abstain counts toward no
threshold). -/
theorem tally_and_status_on_success (inp : VoteInput) (st' : Records)
    (hp : inp.proposal_data.votes.length = 10)
    (h : process_vote_instruction inp = ProcessResult.ok st') :
    ∃ vi,
      find_member inp.multisig_data.members inp.voter.key 0
        inp.multisig_data.num_members = Except.ok (some vi) ∧
      st'.proposal.votes
        = inp.proposal_data.votes.set vi (inp.data.getD 8 0) ∧
      tally_scan st'.proposal.votes 0 (min inp.multisig_data.num_members 10)
          0 0 0 0 =
        some
          (count_in st'.proposal.votes (min inp.multisig_data.num_members 10) 1,
           count_in st'.proposal.votes (min inp.multisig_data.num_members 10) 2,
           count_in st'.proposal.votes (min inp.multisig_data.num_members 10) 3,
           count_in st'.proposal.votes (min inp.multisig_data.num_members 10) 1
             + count_in st'.proposal.votes
                 (min inp.multisig_data.num_members 10) 2
             + count_in st'.proposal.votes
                 (min inp.multisig_data.num_members 10) 3) ∧
      st'.proposal.result =
        status_of inp.multisig_config_data.min_threshold
          (count_in st'.proposal.votes (min inp.multisig_data.num_members 10) 1)
          (count_in st'.proposal.votes (min inp.multisig_data.num_members 10) 2)
          inp.proposal_data.expiry inp.current_time := by
  obtain ⟨vi, hf, hlt, hexp, hact, hvotes, f, a, b, t, hts, hres⟩ :=
    process_vote_ok_inv h
  have hlen10 : (inp.proposal_data.votes.set vi (inp.data.getD 8 0)).length
      = 10 := by
    rw [List.length_set]; exact hp
  have hfull := tally_scan_full
    (inp.proposal_data.votes.set vi (inp.data.getD 8 0))
    (min inp.multisig_data.num_members 10) (by rw [hlen10]; omega)
  have hcomp := hfull.symm.trans hts
  simp only [Option.some.injEq, Prod.mk.injEq] at hcomp
  obtain ⟨hcf, hca, hcb, hct⟩ := hcomp
  refine ⟨vi, hf, hvotes, ?_, ?_⟩
  · rw [hvotes]
    exact hfull
  · rw [hvotes, hres, hcf, hca]

/-- Witness for claim C3 at the baseline call. -/
theorem tally_and_status_on_success_witness :
    (c1_input.proposal_data.votes.length = 10 ∧
      process_vote_instruction c1_input =
        ProcessResult.ok (process_vote_instruction c1_input).records) ∧
    (∃ vi,
      find_member c1_input.multisig_data.members c1_input.voter.key 0
        c1_input.multisig_data.num_members = Except.ok (some vi) ∧
      (process_vote_instruction c1_input).records.proposal.votes
        = c1_input.proposal_data.votes.set vi (c1_input.data.getD 8 0) ∧
      tally_scan (process_vote_instruction c1_input).records.proposal.votes 0
          (min c1_input.multisig_data.num_members 10) 0 0 0 0 =
        some
          (count_in (process_vote_instruction c1_input).records.proposal.votes
             (min c1_input.multisig_data.num_members 10) 1,
           count_in (process_vote_instruction c1_input).records.proposal.votes
             (min c1_input.multisig_data.num_members 10) 2,
           count_in (process_vote_instruction c1_input).records.proposal.votes
             (min c1_input.multisig_data.num_members 10) 3,
           count_in (process_vote_instruction c1_input).records.proposal.votes
             (min c1_input.multisig_data.num_members 10) 1
             + count_in
                 (process_vote_instruction c1_input).records.proposal.votes
                 (min c1_input.multisig_data.num_members 10) 2
             + count_in
                 (process_vote_instruction c1_input).records.proposal.votes
                 (min c1_input.multisig_data.num_members 10) 3) ∧
      (process_vote_instruction c1_input).records.proposal.result =
        status_of c1_input.multisig_config_data.min_threshold
          (count_in (process_vote_instruction c1_input).records.proposal.votes
            (min c1_input.multisig_data.num_members 10) 1)
          (count_in (process_vote_instruction c1_input).records.proposal.votes
            (min c1_input.multisig_data.num_members 10) 2)
          c1_input.proposal_data.expiry c1_input.current_time) :=
  ⟨⟨by decide, by decide⟩, tally_and_status_on_success c1_input
    (process_vote_instruction c1_input).records (by decide) (by decide)⟩

/-- Claim C6: under the structural preconditions, a voter absent from
members[0..num_members] is rejected at the membership check (even when listed
in active_members — no eligibility hypothesis is needed), while a voter
present in the member list but absent from active_members passes the
membership check and is rejected at the later eligibility check; the two
failure sites are distinct. -/
theorem member_gate_before_eligibility (inp : VoteInput)
    (h1 : 10 ≤ inp.data.length) (h2 : inp.voter.is_signer = true)
    (h3 : inp.multisig.is_writable = true)
    (h4 : inp.proposal_state.is_writable = true)
    (h5 : inp.vote_state.is_writable = true)
    (h6 : inp.data.getD 8 0 ≤ 3)
    (h7 : inp.multisig.owner = inp.program_id)
    (h8 : inp.proposal_state.owner = inp.program_id)
    (h9 : inp.multisig_config.owner = inp.program_id)
    (hnm : inp.multisig_data.num_members ≤ inp.multisig_data.members.length) :
    (inp.voter.key ∉
        inp.multisig_data.members.take inp.multisig_data.num_members →
      process_vote_instruction inp =
        ProcessResult.err VoteError.notAMember inp.records) ∧
    (inp.voter.key ∈
        inp.multisig_data.members.take inp.multisig_data.num_members →
      derive_proposal_pda inp.multisig.key (le_u64 inp.data)
        (inp.data.getD 9 0) = inp.proposal_state.key →
      inp.proposal_data.proposal_id = le_u64 inp.data →
      inp.proposal_data.result = ProposalStatus.Active →
      inp.current_time ≤ inp.proposal_data.expiry →
      inp.proposal_data.active_members.contains inp.voter.key = false →
      process_vote_instruction inp =
        ProcessResult.err VoteError.notEligible inp.records) ∧
    VoteError.notAMember ≠ VoteError.notEligible := by
  have hs : structural_checks inp = none :=
    structural_checks_none_intro h1 h2 h3 h4 h5 h6 h7 h8 h9
  refine ⟨?_, ?_, by decide⟩
  · intro hno
    have hf : find_member inp.multisig_data.members inp.voter.key 0
        inp.multisig_data.num_members = Except.ok none := by
      refine find_member_not_found (by omega) ?_
      intro j hj1 hj2 hjv
      exact hno ((mem_take_iff hnm).mpr ⟨j, by omega, hjv⟩)
    exact process_vote_err_notAMember hs hf
  · intro hyes hpda hid hact hexp hcont
    obtain ⟨j0, hj0, hjv0⟩ := (mem_take_iff hnm).mp hyes
    obtain ⟨j, hj⟩ := @find_member_found inp.multisig_data.members
      inp.voter.key inp.multisig_data.num_members 0 (by omega)
      ⟨j0, by omega, by omega, hjv0⟩
    have hpch : proposal_checks inp = some .notEligible := by
      unfold proposal_checks
      rw [if_neg (not_not_intro hpda), if_neg (not_not_intro hid),
        if_neg (not_not_intro hact), if_neg (by omega), if_pos hcont]
    exact process_vote_err_of_proposal hs hj hpch

/-- Witness for claim C6 at the baseline call. -/
theorem member_gate_before_eligibility_witness :
    (10 ≤ c1_input.data.length ∧ c1_input.voter.is_signer = true ∧
      c1_input.multisig.is_writable = true ∧
      c1_input.proposal_state.is_writable = true ∧
      c1_input.vote_state.is_writable = true ∧
      c1_input.data.getD 8 0 ≤ 3 ∧
      c1_input.multisig.owner = c1_input.program_id ∧
      c1_input.proposal_state.owner = c1_input.program_id ∧
      c1_input.multisig_config.owner = c1_input.program_id ∧
      c1_input.multisig_data.num_members
        ≤ c1_input.multisig_data.members.length) ∧
    ((c1_input.voter.key ∉
        c1_input.multisig_data.members.take c1_input.multisig_data.num_members →
      process_vote_instruction c1_input =
        ProcessResult.err VoteError.notAMember c1_input.records) ∧
    (c1_input.voter.key ∈
        c1_input.multisig_data.members.take c1_input.multisig_data.num_members →
      derive_proposal_pda c1_input.multisig.key (le_u64 c1_input.data)
        (c1_input.data.getD 9 0) = c1_input.proposal_state.key →
      c1_input.proposal_data.proposal_id = le_u64 c1_input.data →
      c1_input.proposal_data.result = ProposalStatus.Active →
      c1_input.current_time ≤ c1_input.proposal_data.expiry →
      c1_input.proposal_data.active_members.contains c1_input.voter.key
        = false →
      process_vote_instruction c1_input =
        ProcessResult.err VoteError.notEligible c1_input.records) ∧
    VoteError.notAMember ≠ VoteError.notEligible) :=
  ⟨by decide, member_gate_before_eligibility c1_input (by decide) (by decide)
    (by decide) (by decide) (by decide) (by decide) (by decide) (by decide)
    (by decide) (by decide)⟩

/-- Claim C8: a successful call never leaves the proposal Cancelled: the
expiry gate already rejected current_time > expiry using the same once-read
clock value that the Cancelled branch of the status transition tests. -/
theorem success_never_cancelled (inp : VoteInput) (st' : Records)
    (h : process_vote_instruction inp = ProcessResult.ok st') :
    st'.proposal.result ≠ ProposalStatus.Cancelled := by
  obtain ⟨vi, hf, hlt, hexp, hact, hvotes, f, a, b, t, hts, hres⟩ :=
    process_vote_ok_inv h
  rw [hres]
  exact status_of_ne_cancelled hexp

/-- Witness for claim C8 at the baseline call. -/
theorem success_never_cancelled_witness :
    process_vote_instruction c1_input =
      ProcessResult.ok (process_vote_instruction c1_input).records ∧
    (process_vote_instruction c1_input).records.proposal.result ≠
      ProposalStatus.Cancelled :=
  ⟨by decide, success_never_cancelled c1_input
    (process_vote_instruction c1_input).records (by decide)⟩

/-- Claim C9: a single call leaves the ballot record's votes array either
exactly as supplied (update path: only vote_count changes; any error path:
untouched) or all-zero (creation path: the record is created zero-filled and
only has_permission, vote_count and bump are set); hence for a ballot whose
only mutator is this instruction, every slot stays 0 across any sequence of
calls. -/
theorem ballot_votes_never_written (r : Records) (steps : List VoteInput)
    (h0 : ∀ v ∈ r.vote_state.votes, v = 0) :
    (∀ s : VoteInput,
      (process_vote_instruction s).records.vote_state.votes
          = s.vote_state_data.votes ∨
        (process_vote_instruction s).records.vote_state.votes
          = List.replicate 10 0) ∧
    (∀ v ∈ (steps.foldl apply_step r).vote_state.votes, v = 0) :=
  ⟨process_vote_ballot, foldl_ballot_zero steps r h0⟩

/-- Witness for claim C9: one creating call starting from a zeroed ballot. -/
theorem ballot_votes_never_written_witness :
    (∀ v ∈ c1_input.records.vote_state.votes, v = 0) ∧
    (∀ v ∈ ([c1_input].foldl apply_step c1_input.records).vote_state.votes,
      v = 0) :=
  ⟨by decide, (ballot_votes_never_written c1_input.records [c1_input]
    (by decide)).2⟩

/-- Claim C10: for a group record with the fixed member-array capacity 10,
every well-formed call is free of out-of-bounds array accesses (modelled as
the panicked outcome) if and only if num_members ≤ 10 — unlike the tally
scan, whose range is clamped by min(num_members, 10), the membership scan
ranges over 0..num_members unclamped, and for num_members > 10 a voter
matching no member drives it past the array end. -/
theorem member_scan_bounds_iff (g : Multisig) (hg : g.members.length = 10) :
    (∀ inp : VoteInput, wf_input inp → inp.multisig_data = g →
      ∀ st, process_vote_instruction inp ≠ ProcessResult.panicked st) ↔
      g.num_members ≤ 10 := by
  constructor
  · intro hall
    by_contra hgt
    exact hall (probe_input g) (probe_input_wf g hg) rfl
      (probe_input g).records (probe_panics g hg (by omega))
  · intro hle inp hwf heq st
    have hnm : inp.multisig_data.num_members ≤ 10 := by rw [heq]; exact hle
    exact process_vote_no_panic hwf hnm st

/-- Witness for claim C10 at the baseline two-member group. -/
theorem member_scan_bounds_iff_witness :
    c1_input.multisig_data.members.length = 10 ∧
    ((∀ inp : VoteInput, wf_input inp →
        inp.multisig_data = c1_input.multisig_data →
        ∀ st, process_vote_instruction inp ≠ ProcessResult.panicked st) ↔
      c1_input.multisig_data.num_members ≤ 10) :=
  ⟨by decide, member_scan_bounds_iff c1_input.multisig_data (by decide)⟩

end PinocchioMultisig
